import Mathlib

/-!
Shallow embedding of `src/cpp/llm_server.cpp` (mofa-org/mofa-input).

The file wraps a third-party inference engine (llama.cpp).  The engine is
external to the repository, so it is modelled as a structure of deterministic
functions (`Engine`); the adapter's own code — the chat-turn pipeline in
`generate_response` and the C API functions around it — is translated
line-by-line into explicit state-passing Lean functions over `LlmContext`.
Byte strings are `List Nat`; the engine's key-value cache is modelled as the
list of tokens that have been decoded into it, so `llama_kv_self_n_tokens`
is its length and `llama_kv_self_clear` empties it.  `max_tokens` is an
`Int` as in the C source (`int max_tokens`); the loop
`for (int i = 0; i < max_tokens && n_pos < 8192; i++)` runs `max_tokens.toNat`
times at most.  Temperature is a `float` passed through opaquely to the
sampler; it is modelled as an `Int` stand-in whose only role is equality of
inputs.
-/

namespace LlmServer

abbrev Bytes := List Nat

abbrev Token := Nat

abbrev KV := List Token

abbrev Temperature := Int

/-- A `llama_chat_message` of the C source: a role and a content string.  The
history owns copies of the texts (`strdup`), so values suffice. -/
structure ChatMessage where
  role : String
  content : String
deriving DecidableEq, Repr

/-- The session state of `struct LlmContext` that the chat-turn pipeline
touches: the chat history and the engine context's key-value cache (the
model/vocab handles are fixed and live inside `Engine`). -/
structure LlmContext where
  chat_history : List ChatMessage
  kv : KV
deriving DecidableEq, Repr

/-- The external inference engine (llama.cpp), modelled as deterministic
functions.  `templateLen msgs addAssistant` is the length
`llama_chat_apply_template` reports (negative on failure) and
`render msgs addAssistant` the bytes it writes when the buffer is large
enough; `tokenizeCount bytes addSpecial parseSpecial` is the count
`llama_tokenize` returns (negative on failure) and `tokenizeTokens` the
tokens it writes; `decodeOk` is the success status of `llama_decode` (whose
cache effect is appending the batch); `sample kv temp seed` is the token the
temperature-then-seeded-categorical sampler chain draws from the context's
last logits; `isEog` is `llama_vocab_is_eog`; `piece tok` is the byte piece
`llama_token_to_piece` writes (its return value `n` is the piece's length). -/
structure Engine where
  templateLen : List ChatMessage → Bool → Int
  render : List ChatMessage → Bool → Bytes
  tokenizeCount : Bytes → Bool → Bool → Int
  tokenizeTokens : Bytes → Bool → Bool → List Token
  decodeOk : KV → List Token → Bool
  sample : KV → Temperature → Nat → Token
  isEog : Token → Bool
  piece : Token → Bytes

/-- `ctx_params.n_ctx = 8192`; also the decode loop's bound `n_pos < 8192`. -/
def contextLimit : Nat := 8192

/-- The fixed sampler seed: `llama_sampler_init_dist(12345)`. -/
def samplerSeed : Nat := 12345

/-- `char piece[256]` — the stack buffer for detokenized pieces. -/
def pieceBufSize : Nat := 256

/-- Byte string of an ASCII literal. -/
def strBytes (s : String) : Bytes := s.data.map Char.toNat

/-- The sentinel returned when `llama_chat_apply_template` fails. -/
def templateFailedMsg : Bytes := strBytes ("[Error: chat template failed]")

/-- The sentinel returned when `llama_tokenize` fails. -/
def tokenizationFailedMsg : Bytes := strBytes ("[Error: tokenization failed]")

/-- `sample_token` of the C source: builds a fresh sampler chain of a
temperature stage and a seeded categorical stage with the constant seed
12345, and draws one token from the context's current logits. -/
def sample_token (e : Engine) (kv : KV) (temperature : Temperature) : Token :=
  e.sample kv temperature samplerSeed

/-- `llama_decode`: returns the status the C source ignores, and the new
cache contents (the batch appended). -/
def llama_decode (e : Engine) (kv : KV) (batch : List Token) : Bool × KV :=
  (e.decodeOk kv batch, kv ++ batch)

/-- Why the decode loop of `generate_response` exited. -/
inductive StopReason where
  | eogToken
  | maxTokensReached
  | contextLimitReached
deriving DecidableEq, Repr

/-- Result of the decode loop: the accumulated response bytes, the pieces
delivered to the sink in order, the final cache, the exit reason, and the
number of generated (sampled non-EOG, hence decoded) tokens. -/
structure LoopResult where
  response : Bytes
  streamed : List Bytes
  kv : KV
  reason : StopReason
  genCount : Nat
deriving DecidableEq, Repr

/-- The decode loop `for (int i = 0; i < max_tokens && n_pos < 8192; i++)` of
`generate_response`, with `fuel` the remaining iteration budget
(`max_tokens - i`).  Mirroring the C short-circuit order, the budget is
checked before the context bound; inside an iteration the EOG test breaks
before any piece handling; a piece is appended to the response and delivered
to the sink only when its length is positive (`if (n > 0)`); the sampled
token is then decoded (status ignored) and `n_pos` incremented. -/
def decodeLoop (e : Engine) (temp : Temperature) :
    Nat → KV → Nat → LoopResult
  | 0, kv, _ => ⟨[], [], kv, .maxTokensReached, 0⟩
  | fuel + 1, kv, n_pos =>
    if n_pos < contextLimit then
      let tok := sample_token e kv temp
      if e.isEog tok then ⟨[], [], kv, .eogToken, 0⟩
      else
        let p := e.piece tok
        let kv1 := (llama_decode e kv [tok]).2
        let r := decodeLoop e temp fuel kv1 (n_pos + 1)
        if 0 < p.length then
          ⟨p ++ r.response, p :: r.streamed, r.kv, r.reason, r.genCount + 1⟩
        else
          ⟨r.response, r.streamed, r.kv, r.reason, r.genCount + 1⟩
    else ⟨[], [], kv, .contextLimitReached, 0⟩

/-- Record of one run of the prompt-building phase of `generate_response`
(template application then tokenization), keeping the buffer sizes and flags
the C code uses so they can be stated about. -/
structure PromptBuild where
  initialBufSize : Nat
  len : Int
  resized : Bool
  finalBufSize : Nat
  renderCalls : Nat
  addAssistant : Bool
  rendered : Bytes
  tokBufLen : Nat
  addBos : Bool
  parseSpecial : Bool
  tokCount : Int
  result : Except Bytes (List Token)

/-- The prompt-building phase of `generate_response`: render the history with
the add-assistant-prompt flag into a `std::vector<char> buf(8192)`; if the
renderer reports `len > (int)buf.size()` resize to `len + 1` and re-render;
then tokenize the rendered bytes (`strlen(buf.data())` of them) with
add-special `true` and parse-special `false` into a token buffer of
`strlen(buf.data()) + 16` slots.  A negative renderer length or tokenizer
count yields the corresponding sentinel. -/
def promptBuilder (e : Engine) (hist : List ChatMessage) : PromptBuild :=
  let len := e.templateLen hist true
  if len < 0 then
    { initialBufSize := 8192, len := len, resized := false,
      finalBufSize := 8192, renderCalls := 1, addAssistant := true,
      rendered := [], tokBufLen := 0, addBos := true, parseSpecial := false,
      tokCount := 0, result := .error templateFailedMsg }
  else
    let rendered := e.render hist true
    let tokCount := e.tokenizeCount rendered true false
    { initialBufSize := 8192, len := len,
      resized := decide (8192 < len),
      finalBufSize := if 8192 < len then (len + 1).toNat else 8192,
      renderCalls := if 8192 < len then 2 else 1,
      addAssistant := true, rendered := rendered,
      tokBufLen := rendered.length + 16,
      addBos := true, parseSpecial := false, tokCount := tokCount,
      result := if tokCount < 0 then .error tokenizationFailedMsg
                else .ok (e.tokenizeTokens rendered true false) }

/-- Result of a chat turn: the string `generate_response` returns, the
pieces streamed to the sink in invocation order, and the session state
afterwards. -/
structure TurnResult where
  response : Bytes
  streamed : List Bytes
  state : LlmContext
deriving DecidableEq, Repr

/-- `generate_response` of the C source: build the prompt (returning a
sentinel string on template or tokenization failure), prefill the prompt
tokens in one batch whose decode status is ignored, then run the decode loop
starting from `n_pos = tokens.size()`. -/
def generate_response (e : Engine) (st : LlmContext) (max_tokens : Int)
    (temp : Temperature) : TurnResult :=
  match (promptBuilder e st.chat_history).result with
  | .error msg => ⟨msg, [], st⟩
  | .ok tokens =>
    let kvPrefill := (llama_decode e st.kv tokens).2
    let r := decodeLoop e temp max_tokens.toNat kvPrefill tokens.length
    ⟨r.response, r.streamed, { st with kv := r.kv }⟩

/-- `llm_kv_clear`: clears the engine's key-value cache. -/
def llm_kv_clear (st : LlmContext) : LlmContext :=
  { st with kv := [] }

/-- `llm_kv_count`: `llama_kv_self_n_tokens`, the cache's token count. -/
def llm_kv_count (st : LlmContext) : Nat :=
  st.kv.length

/-- `llm_chat_clear`: clears the history, then the key-value cache. -/
def llm_chat_clear (st : LlmContext) : LlmContext :=
  llm_kv_clear { st with chat_history := [] }

/-- `llm_chat_add_user`: appends `("user", strdup(message))`. -/
def llm_chat_add_user (st : LlmContext) (message : String) : LlmContext :=
  { st with chat_history := st.chat_history ++ [⟨"user", message⟩] }

/-- `llm_chat_respond`: a turn with no sink; returns the response string. -/
def llm_chat_respond (e : Engine) (st : LlmContext) (max_tokens : Int)
    (temp : Temperature) : Bytes × LlmContext :=
  let r := generate_response e st max_tokens temp
  (r.response, r.state)

/-- `llm_chat_respond_stream`: a turn with a sink; the returned string is
freed, so the caller observes only the streamed pieces. -/
def llm_chat_respond_stream (e : Engine) (st : LlmContext) (max_tokens : Int)
    (temp : Temperature) : List Bytes × LlmContext :=
  let r := generate_response e st max_tokens temp
  (r.streamed, r.state)

/-- `llm_generate` (legacy API): clear history, append the user prompt,
respond. -/
def llm_generate (e : Engine) (st : LlmContext) (prompt : String)
    (max_tokens : Int) (temp : Temperature) : Bytes × LlmContext :=
  llm_chat_respond e (llm_chat_add_user (llm_chat_clear st) prompt)
    max_tokens temp

/-- `llm_generate_stream` (legacy API): clear history, append the user
prompt, respond with a sink. -/
def llm_generate_stream (e : Engine) (st : LlmContext) (prompt : String)
    (max_tokens : Int) (temp : Temperature) : List Bytes × LlmContext :=
  llm_chat_respond_stream e (llm_chat_add_user (llm_chat_clear st) prompt)
    max_tokens temp

/-- Model of the sink hand-off in the decode loop: the detokenizer filled
`piece[0..n-1]` of the 256-byte stack buffer and the code writes the null
terminator at index `n` before calling the sink; the write stays inside the
buffer — and the sink receives the well-formed `n`-byte string — exactly
when `n < pieceBufSize`. -/
def sinkDelivery (p : Bytes) : Option Bytes :=
  if p.length < pieceBufSize then some p else none

/-- Fold `llm_chat_add_user` over a list of messages. -/
def addUserAll (st : LlmContext) (msgs : List String) : LlmContext :=
  msgs.foldl llm_chat_add_user st

/-- A small concrete engine for evaluating the model: the template of a
history of `k` messages is `4 * k` bytes, each byte is one token, the
sampler emits the cache size modulo 7, token 6 is end-of-generation, and
each token detokenizes to one byte. -/
def wEngine : Engine where
  templateLen := fun h _ => (h.length : Int) * 4
  render := fun h _ => List.replicate (h.length * 4) 65
  tokenizeCount := fun b _ _ => (b.length : Int)
  tokenizeTokens := fun b _ _ => List.range b.length
  decodeOk := fun _ _ => true
  sample := fun kv _ _ => kv.length % 7
  isEog := fun t => t == 6
  piece := fun t => [t + 48]

/-- `wEngine` with a failing chat-template renderer. -/
def tplFailEngine : Engine :=
  { wEngine with templateLen := fun _ _ => -1 }

/-- `wEngine` with a failing tokenizer. -/
def tokFailEngine : Engine :=
  { wEngine with tokenizeCount := fun _ _ _ => -1 }

/-- `wEngine` whose every `llama_decode` call reports failure. -/
def failDecodeEngine : Engine :=
  { wEngine with decodeOk := fun _ _ => false }

/-- A session with one user message and an empty cache. -/
def st0 : LlmContext :=
  ⟨[⟨"user", "hi"⟩], []⟩

/-- Conclusion of claim C1, at a turn whose prompt build succeeded: the
returned string and streamed pieces are those of the decode loop run from
`n_pos = tokens.length` on the prefilled cache; the generated token count is
at most `max_tokens`; the loop's exit reason is exactly one of the three
stop conditions, a max-tokens exit ran exactly `max_tokens` iterations, and
an EOG or context-limit exit ran strictly fewer (so max-tokens takes
precedence over the context limit when both would stop the loop). -/
def C1Post (e : Engine) (st : LlmContext) (max_tokens : Int)
    (temp : Temperature) : Prop :=
  let toks := e.tokenizeTokens (e.render st.chat_history true) true false
  let r := decodeLoop e temp max_tokens.toNat (st.kv ++ toks) toks.length
  (generate_response e st max_tokens temp).response = r.response ∧
  (generate_response e st max_tokens temp).streamed = r.streamed ∧
  (r.genCount : Int) ≤ max_tokens ∧
  (r.reason = .eogToken ∨ r.reason = .maxTokensReached ∨
    r.reason = .contextLimitReached) ∧
  (r.reason = .maxTokensReached → r.genCount = max_tokens.toNat) ∧
  (r.reason = .eogToken → r.genCount < max_tokens.toNat) ∧
  (r.reason = .contextLimitReached → r.genCount < max_tokens.toNat)

/-- Conclusion of claim C2 (amended): the streamed pieces concatenate to the
returned string, and the respond / respond-stream entry points expose exactly
that string / those pieces. -/
def C2Post (e : Engine) (st : LlmContext) (max_tokens : Int)
    (temp : Temperature) : Prop :=
  (generate_response e st max_tokens temp).streamed.flatten =
    (generate_response e st max_tokens temp).response ∧
  (llm_chat_respond e st max_tokens temp).1 =
    (generate_response e st max_tokens temp).response ∧
  (llm_chat_respond_stream e st max_tokens temp).1 =
    (generate_response e st max_tokens temp).streamed

/-- Conclusion of claim C5: the prompt build renders with the
add-assistant-prompt flag into an initial 8192-byte buffer, resizes to
`len + 1` and re-renders exactly when the renderer reports `len > 8192`,
and tokenizes the rendered bytes with add-BOS set and parse-special unset
into a token buffer of `len(bytes) + 16` slots. -/
def C5Post (e : Engine) (hist : List ChatMessage) : Prop :=
  let pb := promptBuilder e hist
  pb.initialBufSize = 8192 ∧
  pb.addAssistant = true ∧
  pb.len = e.templateLen hist true ∧
  (pb.resized = true ↔ 8192 < pb.len) ∧
  pb.finalBufSize = (if 8192 < pb.len then (pb.len + 1).toNat else 8192) ∧
  pb.renderCalls = (if 8192 < pb.len then 2 else 1) ∧
  pb.rendered = e.render hist true ∧
  pb.addBos = true ∧
  pb.parseSpecial = false ∧
  pb.tokCount = e.tokenizeCount (e.render hist true) true false ∧
  pb.tokBufLen = (e.render hist true).length + 16 ∧
  pb.result = (if pb.tokCount < 0 then Except.error tokenizationFailedMsg
               else Except.ok (e.tokenizeTokens (e.render hist true) true false))

/-- Conclusion of claim C6: the sentinel texts are exactly the two bracketed
strings, a failing renderer makes the turn return the template sentinel
in-band with nothing streamed and the state untouched, and a succeeding
renderer followed by a failing tokenizer likewise returns the tokenization
sentinel. -/
def C6Post (e : Engine) (st : LlmContext) (max_tokens : Int)
    (temp : Temperature) : Prop :=
  templateFailedMsg = strBytes ("[Error: chat template failed]") ∧
  tokenizationFailedMsg = strBytes ("[Error: tokenization failed]") ∧
  (e.templateLen st.chat_history true < 0 →
    generate_response e st max_tokens temp = ⟨templateFailedMsg, [], st⟩) ∧
  (¬ e.templateLen st.chat_history true < 0 →
    e.tokenizeCount (e.render st.chat_history true) true false < 0 →
    generate_response e st max_tokens temp = ⟨tokenizationFailedMsg, [], st⟩)

theorem decodeLoop_counts (e : Engine) (temp : Temperature) :
    ∀ (fuel : Nat) (kv : KV) (n_pos : Nat),
      (decodeLoop e temp fuel kv n_pos).genCount ≤ fuel ∧
      ((decodeLoop e temp fuel kv n_pos).reason = .maxTokensReached →
        (decodeLoop e temp fuel kv n_pos).genCount = fuel) ∧
      ((decodeLoop e temp fuel kv n_pos).reason = .eogToken →
        (decodeLoop e temp fuel kv n_pos).genCount < fuel) ∧
      ((decodeLoop e temp fuel kv n_pos).reason = .contextLimitReached →
        (decodeLoop e temp fuel kv n_pos).genCount < fuel) := by
  intro fuel
  induction fuel with
  | zero =>
    intro kv n_pos
    simp [decodeLoop]
  | succ n ih =>
    intro kv n_pos
    simp only [decodeLoop]
    split
    · split
      · simp
      · obtain ⟨h1, h2, h3, h4⟩ :=
          ih ((llama_decode e kv [sample_token e kv temp]).2) (n_pos + 1)
        split
        · exact ⟨Nat.succ_le_succ h1, by intro h; simp_all,
            by intro h; simp_all, by intro h; simp_all⟩
        · exact ⟨Nat.succ_le_succ h1, by intro h; simp_all,
            by intro h; simp_all, by intro h; simp_all⟩
    · simp

theorem decodeLoop_streamed_concat (e : Engine) (temp : Temperature) :
    ∀ (fuel : Nat) (kv : KV) (n_pos : Nat),
      (decodeLoop e temp fuel kv n_pos).streamed.flatten =
        (decodeLoop e temp fuel kv n_pos).response := by
  intro fuel
  induction fuel with
  | zero =>
    intro kv n_pos
    simp [decodeLoop]
  | succ n ih =>
    intro kv n_pos
    simp only [decodeLoop]
    split
    · split
      · simp
      · split <;> simp [ih]
    · simp

theorem decodeLoop_decodeOk_irrelevant (e : Engine) (d : KV → List Token → Bool)
    (temp : Temperature) :
    ∀ (fuel : Nat) (kv : KV) (n_pos : Nat),
      decodeLoop { e with decodeOk := d } temp fuel kv n_pos =
        decodeLoop e temp fuel kv n_pos := by
  intro fuel
  induction fuel with
  | zero =>
    intro kv n_pos
    simp [decodeLoop]
  | succ n ih =>
    intro kv n_pos
    simp only [decodeLoop, sample_token, llama_decode, ih]

theorem promptBuilder_ok_result (e : Engine) (hist : List ChatMessage)
    (htpl : ¬ e.templateLen hist true < 0)
    (htok : ¬ e.tokenizeCount (e.render hist true) true false < 0) :
    (promptBuilder e hist).result =
      Except.ok (e.tokenizeTokens (e.render hist true) true false) := by
  simp [promptBuilder, htpl, htok]

theorem promptBuilder_decodeOk_irrelevant (e : Engine)
    (d : KV → List Token → Bool) (hist : List ChatMessage) :
    promptBuilder { e with decodeOk := d } hist = promptBuilder e hist := rfl

/-- Claim C1: for every call to respond/respond-stream (`generate_response`)
with positive `max_tokens` whose prompt build succeeds, the decode loop
terminates by exactly one of: sampling an end-of-generation token, completing
`max_tokens` iterations, or reaching the context limit (`n_pos ≥ 8192`),
with precedence EOG > max-tokens > context limit (a max-tokens exit ran the
full budget; EOG and context-limit exits ran strictly less of it); in every
case the successful — possibly empty — loop response is the returned string,
and the number of generated tokens is at most `max_tokens`. -/
theorem generate_response_termination (e : Engine) (st : LlmContext)
    (max_tokens : Int) (temp : Temperature) (hmt : 0 < max_tokens)
    (htpl : ¬ e.templateLen st.chat_history true < 0)
    (htok : ¬ e.tokenizeCount (e.render st.chat_history true) true false < 0) :
    C1Post e st max_tokens temp := by
  have hres := promptBuilder_ok_result e st.chat_history htpl htok
  obtain ⟨h1, h2, h3, h4⟩ := decodeLoop_counts e temp max_tokens.toNat
    (st.kv ++ e.tokenizeTokens (e.render st.chat_history true) true false)
    (e.tokenizeTokens (e.render st.chat_history true) true false).length
  refine ⟨?_, ?_, ?_, ?_, h2, h3, h4⟩
  · simp [generate_response, hres, llama_decode]
  · simp [generate_response, hres, llama_decode]
  · have hcast : (max_tokens.toNat : Int) = max_tokens :=
      Int.toNat_of_nonneg (le_of_lt hmt)
    omega
  · cases hr : (decodeLoop e temp max_tokens.toNat
      (st.kv ++ e.tokenizeTokens (e.render st.chat_history true) true false)
      (e.tokenizeTokens (e.render st.chat_history true) true false).length).reason
    · exact Or.inl rfl
    · exact Or.inr (Or.inl rfl)
    · exact Or.inr (Or.inr rfl)

theorem generate_response_termination_witness :
    (0 < (4 : Int) ∧ ¬ wEngine.templateLen st0.chat_history true < 0 ∧
      ¬ wEngine.tokenizeCount (wEngine.render st0.chat_history true)
        true false < 0) ∧
    C1Post wEngine st0 4 0 :=
  ⟨⟨by decide, by decide, by decide⟩,
    generate_response_termination wEngine st0 4 0 (by decide) (by decide)
      (by decide)⟩

/-- Claim C2 counterexample: on a turn whose chat-template rendering fails,
nothing is delivered to the sink while the returned string is the non-empty
error sentinel, so the streamed concatenation does not equal the returned
string on that turn. -/
theorem stream_concat_counterexample :
    (generate_response tplFailEngine st0 4 0).streamed.flatten ≠
      (generate_response tplFailEngine st0 4 0).response := by
  decide

/-- Claim C2 (amended): for every turn in which prompt construction succeeds
(no error sentinel is returned), the concatenation, in invocation order, of
all byte pieces delivered to the sink equals byte-for-byte the string
`generate_response` returns; `llm_chat_respond` returns exactly that string
and `llm_chat_respond_stream` delivers exactly those pieces, so streaming is
a pure side effect that does not change the computed string. -/
theorem stream_concat_eq_response (e : Engine) (st : LlmContext)
    (max_tokens : Int) (temp : Temperature)
    (htpl : ¬ e.templateLen st.chat_history true < 0)
    (htok : ¬ e.tokenizeCount (e.render st.chat_history true) true false < 0) :
    C2Post e st max_tokens temp := by
  have hres := promptBuilder_ok_result e st.chat_history htpl htok
  refine ⟨?_, rfl, rfl⟩
  simp [generate_response, hres, decodeLoop_streamed_concat]

theorem stream_concat_eq_response_witness :
    (¬ wEngine.templateLen st0.chat_history true < 0 ∧
      ¬ wEngine.tokenizeCount (wEngine.render st0.chat_history true)
        true false < 0) ∧
    C2Post wEngine st0 4 0 :=
  ⟨⟨by decide, by decide⟩,
    stream_concat_eq_response wEngine st0 4 0 (by decide) (by decide)⟩

/-- Claim C3: `llm_generate session prompt max_tokens temperature` returns
the same string and leaves the session in the same state as
`llm_chat_clear`, then `llm_chat_add_user prompt`, then `llm_chat_respond`. -/
theorem llm_generate_eq_clear_add_respond (e : Engine) (st : LlmContext)
    (prompt : String) (max_tokens : Int) (temp : Temperature) :
    llm_generate e st prompt max_tokens temp =
      llm_chat_respond e (llm_chat_add_user (llm_chat_clear st) prompt)
        max_tokens temp := rfl

/-- Claim C4 counterexample: with an engine whose every decode call reports
failure, the prefill decode status is `false`, yet the turn's result is
identical to the result under an engine whose decodes all succeed and is
neither error sentinel — the failure is silently ignored, not surfaced as an
InferenceError. -/
theorem prefill_failure_ignored_counterexample :
    (llama_decode failDecodeEngine st0.kv
      (failDecodeEngine.tokenizeTokens
        (failDecodeEngine.render st0.chat_history true) true false)).1
      = false ∧
    generate_response failDecodeEngine st0 4 0 =
      generate_response wEngine st0 4 0 ∧
    (generate_response failDecodeEngine st0 4 0).response
      ≠ templateFailedMsg ∧
    (generate_response failDecodeEngine st0 4 0).response
      ≠ tokenizationFailedMsg := by
  decide

/-- Claim C4 (amended): a decode failure at prefill is not detected — the
decode status is discarded, so the turn's entire result is invariant under
every change of the engine's decode success function and the turn proceeds
exactly as if the prefill had succeeded; no InferenceError is surfaced. -/
theorem prefill_status_ignored (e : Engine) (d : KV → List Token → Bool)
    (st : LlmContext) (max_tokens : Int) (temp : Temperature) :
    generate_response { e with decodeOk := d } st max_tokens temp =
      generate_response e st max_tokens temp := by
  simp only [generate_response, promptBuilder_decodeOk_irrelevant]
  cases hres : (promptBuilder e st.chat_history).result with
  | error msg => simp [hres]
  | ok toks =>
    simp [hres, llama_decode, decodeLoop_decodeOk_irrelevant]

/-- Claim C5: the prompt builder renders the history with the
add-assistant-prompt flag into an initial 8 KiB buffer, reallocates to the
reported required size plus one and re-renders exactly when the renderer
reports a size larger than the buffer, and tokenizes the rendered bytes with
add-BOS set and parse-special unset into a token buffer of
`len(bytes) + 16` slots. -/
theorem prompt_builder_algorithm (e : Engine) (hist : List ChatMessage)
    (htpl : ¬ e.templateLen hist true < 0) :
    C5Post e hist := by
  simp [C5Post, promptBuilder, htpl]

theorem prompt_builder_algorithm_witness :
    (¬ wEngine.templateLen st0.chat_history true < 0) ∧
    C5Post wEngine st0.chat_history :=
  ⟨by decide, prompt_builder_algorithm wEngine st0.chat_history (by decide)⟩

/-- Claim C6: a failing chat-template renderer makes the turn return exactly
the sentinel `"[Error: chat template failed]"`, and a failing tokenizer
makes it return exactly `"[Error: tokenization failed]"`; in both cases the
bracketed sentinel is the in-band single-string result, nothing is streamed,
and the session state is untouched — no other error channel exists. -/
theorem turn_error_sentinels (e : Engine) (st : LlmContext)
    (max_tokens : Int) (temp : Temperature) :
    C6Post e st max_tokens temp := by
  refine ⟨rfl, rfl, ?_, ?_⟩
  · intro h
    have hres : (promptBuilder e st.chat_history).result =
        Except.error templateFailedMsg := by
      simp [promptBuilder, h]
    simp [generate_response, hres]
  · intro h1 h2
    have hres : (promptBuilder e st.chat_history).result =
        Except.error tokenizationFailedMsg := by
      simp [promptBuilder, h1, h2]
    simp [generate_response, hres]

theorem turn_error_sentinels_witness :
    (tplFailEngine.templateLen st0.chat_history true < 0 ∧
      generate_response tplFailEngine st0 4 0 =
        ⟨templateFailedMsg, [], st0⟩) ∧
    ((¬ tokFailEngine.templateLen st0.chat_history true < 0) ∧
      tokFailEngine.tokenizeCount
        (tokFailEngine.render st0.chat_history true) true false < 0 ∧
      generate_response tokFailEngine st0 4 0 =
        ⟨tokenizationFailedMsg, [], st0⟩) :=
  ⟨⟨by decide,
      (turn_error_sentinels tplFailEngine st0 4 0).2.2.1 (by decide)⟩,
    ⟨by decide, by decide,
      (turn_error_sentinels tokFailEngine st0 4 0).2.2.2 (by decide)
        (by decide)⟩⟩

/-- Claim C7: `llm_chat_clear` empties the history and also clears the
engine's key-value cache, so `llm_kv_count` reports 0 immediately after it;
`llm_kv_clear` leaves the history unchanged and likewise leaves the cache
empty with `llm_kv_count` reporting 0. -/
theorem clear_resets_history_and_kv (st : LlmContext) :
    (llm_chat_clear st).chat_history = [] ∧
    (llm_chat_clear st).kv = [] ∧
    llm_kv_count (llm_chat_clear st) = 0 ∧
    (llm_kv_clear st).chat_history = st.chat_history ∧
    (llm_kv_clear st).kv = [] ∧
    llm_kv_count (llm_kv_clear st) = 0 :=
  ⟨rfl, rfl, rfl, rfl, rfl, rfl⟩

/-- Claim C8: the sampler seed is the constant 12345, and two turns with
temperature 0 and the same `max_tokens` on freshly cleared sessions to which
the same user messages were appended return identical response strings —
the temperature-then-seeded-categorical pipeline is deterministic for equal
inputs. -/
theorem temp_zero_reproducibility (e : Engine) (st1 st2 : LlmContext)
    (msgs : List String) (max_tokens : Int) :
    samplerSeed = 12345 ∧
    (llm_chat_respond e (addUserAll (llm_chat_clear st1) msgs)
        max_tokens 0).1 =
      (llm_chat_respond e (addUserAll (llm_chat_clear st2) msgs)
        max_tokens 0).1 :=
  ⟨rfl, rfl⟩

/-- Claim C9: a turn never modifies the chat history — the session state
after `generate_response` (hence after respond and respond-stream) carries
the same history, entry for entry, as before it; the assistant reply is only
returned, never appended. -/
theorem respond_preserves_history (e : Engine) (st : LlmContext)
    (max_tokens : Int) (temp : Temperature) :
    (generate_response e st max_tokens temp).state.chat_history =
      st.chat_history ∧
    (llm_chat_respond e st max_tokens temp).2.chat_history =
      st.chat_history ∧
    (llm_chat_respond_stream e st max_tokens temp).2.chat_history =
      st.chat_history := by
  have h : (generate_response e st max_tokens temp).state.chat_history =
      st.chat_history := by
    simp only [generate_response]
    split <;> rfl
  exact ⟨h, h, h⟩

/-- Claim C10: the detokenization buffer of the decode loop is exactly 256
bytes; writing the null terminator at index `n` after an `n`-byte piece, and
hence handing the sink a well-formed null-terminated string of exactly `n`
bytes, is in bounds precisely when `n < 256`, and a piece that fills the
whole buffer (`n = 256`) makes the terminator write out of bounds. -/
theorem piece_terminator_bounds :
    pieceBufSize = 256 ∧
    (∀ p : Bytes, sinkDelivery p = some p ↔ p.length < pieceBufSize) ∧
    sinkDelivery (List.replicate pieceBufSize 0) = none := by
  refine ⟨rfl, ?_, by simp [sinkDelivery]⟩
  intro p
  constructor
  · intro h
    by_contra hlt
    simp [sinkDelivery, hlt] at h
  · intro h
    simp [sinkDelivery, h]

end LlmServer
